/-
  Verification of the metric-extraction scraper of the etf-compare repository.

  The development shallowly embeds `src/scraper.py`:
  * `extract_metrics` models lines 38-179 of `scrape_lazyportfolio_30y_metrics`
    (everything after the HTTP fetch): name resolution, the narrative-paragraph
    strategy, the generic-container strategy, the real-return estimation
    fallback, validation, and the derived ratios.
  * `scrape_lazyportfolio_30y_metrics` adds the fetch step (lines 27-35),
    with the network modelled as an oracle `String → Except String Doc`.
  * `scrape_multiple_lazyportfolio_30y_metrics` models the batch loop
    (lines 181-214).

  Python floats are modelled as rationals (ℚ); Python `re.search` calls are
  modelled by hand-rolled leftmost-match scanners specialised to the five
  regular expressions the source uses (all of the form literal/alternation,
  `\s+`, `[^\d]*`, `(\d+\.\d+)`, `%`, for which greedy matching without
  backtracking coincides with Python semantics).  Python truthiness of the
  float-or-None locals (`if retorno_30y_nominal`, `not retorno_30y_real`)
  is modelled by `truthyFloat`, which is false exactly on `none` and `some 0`.
-/
import Mathlib

attribute [local semireducible] Rat.add Rat.mul Rat.inv Rat.sub

deriving instance DecidableEq for Except

/-! ## Character and list-of-character machinery -/

/-- Python `\s` whitespace class (ASCII): space, tab, newline, CR, VT, FF. -/
def pyIsSpace (c : Char) : Bool :=
  c = ' ' || c = '\t' || c = '\n' || c = '\r' || c = '\x0b' || c = '\x0c'

/-- Lowercasing of a character list, modelling Python `str.lower()` on the
ASCII texts the scraper handles. -/
def lowerL (cs : List Char) : List Char := cs.map Char.toLower

/-- Whether `nd` is a prefix of the second list (as a Bool). -/
def isPrefixL : List Char → List Char → Bool
  | [], _ => true
  | _ :: _, [] => false
  | n :: ns, h :: hs => if n = h then isPrefixL ns hs else false

/-- Python substring test `nd in hay`. -/
def strContains (nd : List Char) : List Char → Bool
  | [] => isPrefixL nd []
  | c :: rest => isPrefixL nd (c :: rest) || strContains nd rest

/-- Match the literal `nd` at the head of `hay`, returning the rest. -/
def dropPrefixL : List Char → List Char → Option (List Char)
  | [], hay => some hay
  | _ :: _, [] => none
  | n :: ns, h :: hs => if n = h then dropPrefixL ns hs else none

/-- Maximal run of decimal digits at the head of the list (regex `\d+`/`\d*`). -/
def takeDigits : List Char → List Char × List Char
  | [] => ([], [])
  | c :: cs =>
    if c.isDigit then
      let r := takeDigits cs
      (c :: r.1, r.2)
    else ([], c :: cs)

/-- Numeric value of a digit run. -/
def digitsVal (cs : List Char) : Nat :=
  cs.foldl (fun acc c => 10 * acc + (c.toNat - 48)) 0

/-- Regex fragment `(\d+\.\d+)`: digits, a dot, digits; returns the captured
value (as Python `float(...)` of the captured group) and the rest. -/
def parseDecimal (cs : List Char) : Option (ℚ × List Char) :=
  let w := takeDigits cs
  match w.1 with
  | [] => none
  | _ :: _ =>
    match w.2 with
    | '.' :: rest =>
      let f := takeDigits rest
      match f.1 with
      | [] => none
      | _ :: _ =>
        some ((digitsVal w.1 : ℚ) + (digitsVal f.1 : ℚ) / ((10 : ℚ) ^ f.1.length), f.2)
    | _ => none

/-- Drop a maximal run of whitespace. -/
def dropSpaces (cs : List Char) : List Char := cs.dropWhile pyIsSpace

/-- Regex fragment `\s+`: at least one whitespace character, greedily. -/
def takeSpaces1 : List Char → Option (List Char)
  | [] => none
  | c :: cs => if pyIsSpace c then some (dropSpaces cs) else none

/-- Regex fragment `[^\d]*`, greedily. -/
def dropNonDigits (cs : List Char) : List Char := cs.dropWhile (fun c => !c.isDigit)

/-- Ordered alternation of literals (regex `(?:a|b|c)`), returning the rest
after the first alternative that matches. -/
def firstAlt : List (List Char) → List Char → Option (List Char)
  | [], _ => none
  | a :: rest, cs =>
    match dropPrefixL a cs with
    | some r => some r
    | none => firstAlt rest cs

/-! ## The five regular-expression searches of scraper.py -/

/-- Match of `(\d+\.\d+)%\s+compound annual return` at the current position
(scraper.py line 76). -/
def matchNominalPara (cs : List Char) : Option ℚ := do
  let (v, r1) ← parseDecimal cs
  let r2 ← dropPrefixL ['%'] r1
  let r3 ← takeSpaces1 r2
  let _ ← dropPrefixL "compound annual return".toList r3
  pure v

/-- Match of `with a\s+(\d+\.\d+)%\s+standard deviation` at the current
position (scraper.py line 82). -/
def matchStdPara (cs : List Char) : Option ℚ := do
  let r1 ← dropPrefixL "with a".toList cs
  let r2 ← takeSpaces1 r1
  let (v, r3) ← parseDecimal r2
  let r4 ← dropPrefixL ['%'] r3
  let r5 ← takeSpaces1 r4
  let _ ← dropPrefixL "standard deviation".toList r5
  pure v

/-- Match of `(\d+\.\d+)%\s+inflation adjusted` at the current position
(scraper.py line 89). -/
def matchRealPara (cs : List Char) : Option ℚ := do
  let (v, r1) ← parseDecimal cs
  let r2 ← dropPrefixL ['%'] r1
  let r3 ← takeSpaces1 r2
  let _ ← dropPrefixL "inflation adjusted".toList r3
  pure v

/-- Match of `(?:annual|return|cagr)[^\d]*(\d+\.\d+)%` at the current
position, on lowercased text (scraper.py line 120). -/
def matchNominalCont (cs : List Char) : Option ℚ := do
  let r1 ← firstAlt ["annual".toList, "return".toList, "cagr".toList] cs
  let (v, r3) ← parseDecimal (dropNonDigits r1)
  let _ ← dropPrefixL ['%'] r3
  pure v

/-- Match of `(?:standard deviation|std|volatility)[^\d]*(\d+\.\d+)%` at the
current position, on lowercased text (scraper.py line 128). -/
def matchStdCont (cs : List Char) : Option ℚ := do
  let r1 ← firstAlt ["standard deviation".toList, "std".toList, "volatility".toList] cs
  let (v, r3) ← parseDecimal (dropNonDigits r1)
  let _ ← dropPrefixL ['%'] r3
  pure v

/-- Leftmost-match search, modelling `re.search`: try the matcher at every
position from the left and return the first captured value. -/
def searchM (m : List Char → Option ℚ) : List Char → Option ℚ
  | [] => m []
  | c :: rest =>
    match m (c :: rest) with
    | some v => some v
    | none => searchM m rest

/-! ## Data model -/

/-- A `div` element of the fetched page: its `class` attribute, its `id`
attribute, and its flattened text (`get_text()`). -/
structure HtmlDiv where
  className : Option String
  idName : Option String
  text : String
deriving DecidableEq

/-- The parsed document (`BeautifulSoup(response.text, 'html.parser')`),
restricted to the features the scraper reads: the first `h1` text, the
`title` text, the texts of all `p` elements in document order, and the
`div` elements in document order. -/
structure Doc where
  h1 : Option String
  titleTag : Option String
  paragraphs : List String
  divs : List HtmlDiv
deriving DecidableEq

/-- The dictionary returned by `scrape_lazyportfolio_30y_metrics`
(scraper.py lines 169-179).  `real_30y_return` is an `Option` because the
Python variable can still be `None` in the returned dict (when the nominal
return resolved to 0.0 and the standard deviation to 0.0). -/
structure MetricRecord where
  name : String
  url : String
  nominal_30y_return : ℚ
  real_30y_return : Option ℚ
  std_deviation : ℚ
  nominal_sharpe : ℚ
  real_sharpe : ℚ
  scrape_time : String
  is_real_return_estimated : Bool
deriving DecidableEq

/-- The three metric locals of the scraper (lines 41-43). -/
structure MetricState where
  retorno_30y_nominal : Option ℚ
  retorno_30y_real : Option ℚ
  desvio_estandar : Option ℚ
deriving DecidableEq

/-- Errors raised by the post-fetch part of the scraper: the
`ValueError` of line 161 (missing metrics, with the `missing_metrics` list)
and the `TypeError` Python raises at line 165 when `retorno_30y_real` is
still `None` at the ratio computation. -/
inductive ExtractError where
  | missingMetrics (missing : List String)
  | typeError
deriving DecidableEq

/-- Python truthiness of a float-or-None value: `None` and `0.0` are falsy. -/
def truthyFloat : Option ℚ → Bool
  | none => false
  | some v => decide (v ≠ 0)

/-! ## Name resolution (scraper.py lines 46-60) -/

/-- Python `str.strip()`. -/
def pyStrip (s : String) : String :=
  (((s.toList.dropWhile pyIsSpace).reverse.dropWhile pyIsSpace).reverse).asString

/-- Characters before the first `|`, modelling `split('|')[0]`. -/
def beforeBar : List Char → List Char
  | [] => []
  | c :: cs => if c = '|' then [] else c :: beforeBar cs

/-- Asset-name resolution: first `h1` stripped; else the `title` text
stripped, cut at the first `|`, stripped again; else the sentinel. -/
def resolveName (doc : Doc) : String :=
  match doc.h1 with
  | some t => pyStrip t
  | none =>
    match doc.titleTag with
    | some t => pyStrip ((beforeBar (pyStrip t).toList).asString)
    | none => "Name not found"

/-! ## First approach: narrative paragraphs (scraper.py lines 62-96) -/

/-- The filter of line 72: both phrases occur in the lowercased text. -/
def paragraphMatches (text : String) : Bool :=
  let low := lowerL text.toList
  strContains "compound annual return".toList low &&
    strContains "standard deviation".toList low

/-- Lines 75-92: the three unguarded regex extractions inside a matching
paragraph; each search overwrites the previous value only when it matches. -/
def updateFromParagraph (st : MetricState) (text : String) : MetricState :=
  let cs := text.toList
  let nominal :=
    match searchM matchNominalPara cs with
    | some v => some v
    | none => st.retorno_30y_nominal
  let std :=
    match searchM matchStdPara cs with
    | some v => some v
    | none => st.desvio_estandar
  let real :=
    if strContains "inflation adjusted".toList (lowerL cs) then
      match searchM matchRealPara cs with
      | some v => some v
      | none => st.retorno_30y_real
    else st.retorno_30y_real
  ⟨nominal, real, std⟩

/-- The paragraph loop with its early `break` (lines 67-96): stop as soon as
both nominal return and standard deviation are truthy. -/
def scanParagraphs : List String → MetricState → MetricState
  | [], st => st
  | t :: rest, st =>
    if paragraphMatches t then
      let st2 := updateFromParagraph st t
      if truthyFloat st2.retorno_30y_nominal && truthyFloat st2.desvio_estandar then st2
      else scanParagraphs rest st2
    else scanParagraphs rest st

/-! ## Second approach: generic containers (scraper.py lines 98-131) -/

/-- Token test of lines 104-105: any of the four tokens occurs in the
lowercased attribute value. -/
def metricTokensMatch (s : String) : Bool :=
  ["metric", "stat", "result", "data"].any (fun tk => strContains tk.toList (lowerL s.toList))

/-- Selection `find_all('div', class_=lambda c: c and any(...))` of line 104. -/
def classAttrMatches (d : HtmlDiv) : Bool :=
  match d.className with
  | some c => decide (c ≠ "") && metricTokensMatch c
  | none => false

/-- Selection `find_all('div', id=lambda i: i and any(...))` of line 105. -/
def idAttrMatches (d : HtmlDiv) : Bool :=
  match d.idName with
  | some i => decide (i ≠ "") && metricTokensMatch i
  | none => false

/-- The `metric_containers` list (lines 103-105): class matches first, then id
matches, each in document order (a div matching both appears twice). -/
def metricContainers (doc : Doc) : List HtmlDiv :=
  doc.divs.filter classAttrMatches ++ doc.divs.filter idAttrMatches

/-- The filter of line 114: a percent sign and a return-indicating token. -/
def containerTextMatches (text : String) : Bool :=
  strContains ['%'] text.toList &&
    ["return", "cagr", "annual"].any (fun tk => strContains tk.toList (lowerL text.toList))

/-- Lines 109-131: inside a matching container, each metric is searched only
while its current value is falsy (None or 0.0). -/
def updateFromContainer (st : MetricState) (text : String) : MetricState :=
  if containerTextMatches text then
    let low := lowerL text.toList
    let nominal :=
      if !truthyFloat st.retorno_30y_nominal then
        match searchM matchNominalCont low with
        | some v => some v
        | none => st.retorno_30y_nominal
      else st.retorno_30y_nominal
    let std :=
      if !truthyFloat st.desvio_estandar then
        match searchM matchStdCont low with
        | some v => some v
        | none => st.desvio_estandar
      else st.desvio_estandar
    ⟨nominal, st.retorno_30y_real, std⟩
  else st

/-- The container loop (no early exit). -/
def scanContainers : List HtmlDiv → MetricState → MetricState
  | [], st => st
  | d :: rest, st => scanContainers rest (updateFromContainer st d.text)

/-- The guard of line 99: the second approach runs only when the nominal
return or the standard deviation is still falsy. -/
def secondApproach (doc : Doc) (st : MetricState) : MetricState :=
  if !truthyFloat st.retorno_30y_nominal || !truthyFloat st.desvio_estandar then
    scanContainers (metricContainers doc) st
  else st

/-! ## Fallback, validation, ratios (scraper.py lines 133-179) -/

/-- State after the first approach, starting from all-`None` (lines 41-43). -/
def firstApproach (doc : Doc) : MetricState :=
  scanParagraphs doc.paragraphs ⟨none, none, none⟩

/-- State after both extraction approaches, before the estimation fallback. -/
def stagesResult (doc : Doc) : MetricState :=
  secondApproach doc (firstApproach doc)

/-- Line 134-136: `if retorno_30y_nominal and not retorno_30y_real:` —
estimate the real return as nominal − 3.0 (Python truthiness on both). -/
def estimateRealReturn (st : MetricState) : MetricState :=
  match st.retorno_30y_nominal with
  | some n =>
    if decide (n ≠ 0) && !truthyFloat st.retorno_30y_real then
      ⟨some n, some (n - 3), st.desvio_estandar⟩
    else st
  | none => st

/-- Final metric state of the scraper before validation. -/
def resolveMetrics (doc : Doc) : MetricState :=
  estimateRealReturn (stagesResult doc)

/-- Lines 140-144: the list of missing critical metrics (`is None` tests). -/
def missingMetricsList (st : MetricState) : List String :=
  (if st.retorno_30y_nominal = none then ["30Y nominal return"] else []) ++
    (if st.desvio_estandar = none then ["standard deviation"] else [])

/-- The post-fetch body of `scrape_lazyportfolio_30y_metrics`
(scraper.py lines 38-179): resolve the name and the metrics, validate,
compute the guarded ratios and build the record.  When the standard
deviation is nonzero but `retorno_30y_real` is still `None` (reachable when
the nominal return resolved to 0.0), line 165 of the source raises a
`TypeError`, modelled by `.error .typeError`. -/
def extract_metrics (url : String) (doc : Doc) (now : String) :
    Except ExtractError MetricRecord :=
  let nombre := resolveName doc
  let st := resolveMetrics doc
  match st.retorno_30y_nominal, st.desvio_estandar with
  | some n, some s =>
    if decide (s ≠ 0) then
      match st.retorno_30y_real with
      | some rv =>
        .ok ⟨nombre, url, n, some rv, s, n / s, rv / s, now, decide (rv = n - 3)⟩
      | none => .error .typeError
    else
      .ok ⟨nombre, url, n, st.retorno_30y_real, s, 0, 0, now,
        decide (st.retorno_30y_real = some (n - 3))⟩
  | _, _ => .error (.missingMetrics (missingMetricsList st))

/-! ## Fetch and batch (scraper.py lines 27-35 and 181-214) -/

/-- Rendering of `str(e)` for the exceptions the per-source scrape can raise. -/
def renderExtractError (url : String) : ExtractError → String
  | .missingMetrics ms =>
    "Missing critical metrics for " ++ url ++ ": " ++ String.intercalate ", " ms
  | .typeError => "unsupported operand type(s) for /: 'NoneType' and 'float'"

/-- One full scrape of a URL: fetch (modelled by the oracle `fetch`, a
transport failure carrying the detail string of line 33) followed by
extraction; every failure is surfaced as the `str(e)` the batch loop
records. -/
def scrape_lazyportfolio_30y_metrics (fetch : String → Except String Doc)
    (now url : String) : Except String MetricRecord :=
  match fetch url with
  | .error detail => .error ("Error fetching URL " ++ url ++ ": " ++ detail)
  | .ok doc =>
    match extract_metrics url doc now with
    | .ok r => .ok r
    | .error e => .error (renderExtractError url e)

/-- One entry of the batch `errors` list (line 202). -/
structure ScrapeFailure where
  url : String
  error : String
deriving DecidableEq

/-- The batch loop of lines 181-214: each URL yields either a record or a
failure entry, in input order, and a failure never stops the loop. -/
def scrape_multiple_lazyportfolio_30y_metrics (fetch : String → Except String Doc)
    (now : String) : List String → List MetricRecord × List ScrapeFailure
  | [] => ([], [])
  | url :: rest =>
    let tail := scrape_multiple_lazyportfolio_30y_metrics fetch now rest
    match scrape_lazyportfolio_30y_metrics fetch now url with
    | .ok r => (r :: tail.1, tail.2)
    | .error e => (tail.1, ⟨url, e⟩ :: tail.2)

/-! ## Concrete documents and records used as witnesses and counterexamples -/

/-- The structured-block text of the spec's first scenario. -/
def structuredBlockText : String :=
  "30Y Return 9.80% ... 30Y Inflation Adjusted Return 6.90% ... Std Deviation 15.20%"

/-- A document whose only content is a block carrying the structured-block
text, with a class (`stats`) that the generic-container strategy selects. -/
def cdoc1 : Doc := ⟨none, none, [], [⟨some "stats", none, structuredBlockText⟩]⟩

/-- The same block but with the source site's own style class, which none of
the scraper's strategies selects. -/
def cdoc1b : Doc := ⟨none, none, [], [⟨some "et_pb_text_inner", none, structuredBlockText⟩]⟩

/-- What the code actually extracts from `cdoc1`: the generic-container
strategy finds 9.80 and 15.20, the real return is estimated as 6.80. -/
def crec1 : MetricRecord :=
  ⟨"Name not found", "u", 49/5, some (34/5), 76/5, 49/76, 17/38, "t", true⟩

/-- A narrative paragraph carrying nominal 9.50, std 14.00 and a genuinely
present inflation-adjusted return 6.50 (which equals 9.50 − 3). -/
def cdoc2 : Doc := ⟨none, none,
  ["The portfolio delivered a 9.50% compound annual return with a 14.00% standard deviation, and a 6.50% inflation adjusted return."],
  []⟩

/-- The record extracted from `cdoc2`: the found real return 6.50 is kept,
yet the estimation flag is `true` because 6.50 = 9.50 − 3. -/
def crec2 : MetricRecord :=
  ⟨"Name not found", "u", 19/2, some (13/2), 14, 19/28, 13/28, "t", true⟩

/-- The `cdoc2` record produced with a different timestamp. -/
def crec2b : MetricRecord :=
  ⟨"Name not found", "u", 19/2, some (13/2), 14, 19/28, 13/28, "t2", true⟩

/-- A paragraph whose inflation-adjusted return is genuinely present on the
page but equal to 0.00, so Python truthiness treats it as absent. -/
def cdoc3 : Doc := ⟨none, none,
  ["8.50% compound annual return with a 14.00% standard deviation and 0.00% inflation adjusted return"],
  []⟩

/-- The record extracted from `cdoc3`: the found 0.00 real return has been
overwritten by the fallback estimate 8.50 − 3 = 5.50. -/
def crec3 : MetricRecord :=
  ⟨"Name not found", "u", 17/2, some (11/2), 14, 17/28, 11/28, "t", true⟩

/-- A document whose paragraph strategy resolves the nominal return to 0.00
and whose container strategy would find 7.70: the second strategy overwrites
the already-set 0.00. -/
def cdoc4 : Doc := ⟨none, none,
  ["0.00% compound annual return with a 14.00% standard deviation"],
  [⟨some "stats", none, "Annual return 7.70%"⟩]⟩

/-- A document resolving nominal = 0.00 and std = 14.00 with no real return
anywhere: the fallback is skipped and line 165 of the source raises a
`TypeError`. -/
def cdoc6 : Doc := ⟨none, none,
  ["0.00% compound annual return with a 14.00% standard deviation"],
  []⟩

/-- A document whose figures are integer percentages (`9%`, `14%`),
matching none of the decimal-point patterns. -/
def cdoc10 : Doc := ⟨none, none,
  ["The fund returned 9% compound annual return with a 14% standard deviation"],
  [⟨some "stats", none, "Annual return 9% and volatility 14%"⟩]⟩

/-! ## Statements of the claims that fail on the code, for refutation -/

/-- Claim C1 as stated: any document containing a structured block with the
scenario text extracts successfully to nominal 9.80, real 6.90 (not
estimated), std 15.20. -/
def claimC1Statement : Prop :=
  ∀ (url : String) (doc : Doc) (now : String),
    (∃ d, d ∈ doc.divs ∧ d.text = structuredBlockText) →
    ∃ r, extract_metrics url doc now = .ok r ∧
      r.nominal_30y_return = 49/5 ∧ r.real_30y_return = some (69/10) ∧
      r.std_deviation = 76/5 ∧ r.is_real_return_estimated = false

/-- Claim C2 as stated: the estimation flag is true exactly when no
extraction strategy found a real return on the page. -/
def claimC2Statement : Prop :=
  ∀ (url : String) (doc : Doc) (now : String) (r : MetricRecord),
    extract_metrics url doc now = .ok r →
    (r.is_real_return_estimated = true ↔ (stagesResult doc).retorno_30y_real = none)

/-- Claim C3 as stated: whenever the strategies resolve the nominal return
(any value, 0.0 included) and not the real return, the record carries
real = nominal − 3 with the flag set; and a real return that was found is
never replaced by the fallback. -/
def claimC3Statement : Prop :=
  (∀ (url : String) (doc : Doc) (now : String) (r : MetricRecord) (n : ℚ),
    (stagesResult doc).retorno_30y_nominal = some n →
    (stagesResult doc).retorno_30y_real = none →
    extract_metrics url doc now = .ok r →
    r.real_30y_return = some (n - 3) ∧ r.is_real_return_estimated = true) ∧
  (∀ (url : String) (doc : Doc) (now : String) (r : MetricRecord) (v : ℚ),
    (stagesResult doc).retorno_30y_real = some v →
    extract_metrics url doc now = .ok r →
    r.real_30y_return = some v)

/-- Claim C4 as stated: a metric set by the paragraph strategy (any value,
0.0 included) is never overwritten by the container strategy. -/
def claimC4Statement : Prop :=
  ∀ (doc : Doc) (v : ℚ),
    ((firstApproach doc).retorno_30y_nominal = some v →
      (stagesResult doc).retorno_30y_nominal = some v) ∧
    ((firstApproach doc).desvio_estandar = some v →
      (stagesResult doc).desvio_estandar = some v)

/-! ## Helpers for the batch theorems -/

/-- The successful outcome of one scrape, if any. -/
def okRecord : Except String MetricRecord → Option MetricRecord
  | .ok r => some r
  | .error _ => none

/-- The failure entry one scrape contributes to the batch `errors` list. -/
def failureEntry (url : String) : Except String MetricRecord → Option ScrapeFailure
  | .ok _ => none
  | .error e => some ⟨url, e⟩

/-! ## Decimal-free texts (claim C10) -/

/-- True when the character list contains no digit-dot-digit window, i.e.
no substring that the regex fragment `\d+\.\d+` could match. -/
def noDecimalToken : List Char → Bool
  | c1 :: c2 :: c3 :: rest =>
    !(c1.isDigit && c2 = '.' && c3.isDigit) && noDecimalToken (c2 :: c3 :: rest)
  | _ => true

/-! ## Lemmas: texts without a decimal number match no pattern -/

theorem noDecimalToken_tail {c : Char} {cs : List Char}
    (h : noDecimalToken (c :: cs) = true) : noDecimalToken cs = true := by
  match cs with
  | [] => rfl
  | [c2] => rfl
  | c2 :: c3 :: rest =>
    simp only [noDecimalToken, Bool.and_eq_true] at h
    exact h.2

theorem noDecimalToken_suffix {l1 l2 : List Char} (h : l1 <:+ l2)
    (h2 : noDecimalToken l2 = true) : noDecimalToken l1 = true := by
  obtain ⟨t, rfl⟩ := h
  induction t with
  | nil => exact h2
  | cons c t ih => exact ih (noDecimalToken_tail h2)

theorem takeDigits_no_decimal {cs : List Char} {c : Char} (hc : c.isDigit = true)
    (h : noDecimalToken (c :: cs) = true) :
    ∀ d rest, (takeDigits cs).2 = '.' :: d :: rest → d.isDigit = false := by
  induction cs generalizing c with
  | nil => intro d rest h2; simp [takeDigits] at h2
  | cons c2 cs2 ih =>
    intro d rest h2
    by_cases h3 : c2.isDigit
    · simp only [takeDigits, h3, if_true] at h2
      exact ih h3 (noDecimalToken_tail h) d rest h2
    · simp only [takeDigits, h3, Bool.false_eq_true, if_false] at h2
      obtain ⟨h4, h5⟩ := List.cons.inj h2
      subst h4; subst h5
      simp only [noDecimalToken, Bool.and_eq_true, Bool.not_eq_true',
        Bool.and_eq_false_iff] at h
      rcases h.1 with h6 | h6
      · rcases h6 with h6 | h6
        · rw [hc] at h6; exact absurd h6 (by simp)
        · exact absurd h6 (by simp)
      · exact h6

theorem parseDecimal_none {cs : List Char} (h : noDecimalToken cs = true) :
    parseDecimal cs = none := by
  match cs with
  | [] => rfl
  | c :: cs' =>
    by_cases hd : c.isDigit
    · have hb := takeDigits_no_decimal hd h
      simp only [parseDecimal, takeDigits, hd, if_true]
      cases hsnd : (takeDigits cs').2 with
      | nil => simp
      | cons x xs =>
        by_cases hx : x = '.'
        · subst hx
          cases xs with
          | nil => simp [takeDigits]
          | cons d rest =>
            have hdd : d.isDigit = false := hb d rest hsnd
            simp [takeDigits, hdd]
        · simp [hx]
    · simp [parseDecimal, takeDigits, hd]

theorem dropPrefixL_suffix : ∀ {nd hay r : List Char},
    dropPrefixL nd hay = some r → r <:+ hay := by
  intro nd
  induction nd with
  | nil =>
    intro hay r h
    simp only [dropPrefixL, Option.some.injEq] at h
    exact h ▸ List.suffix_refl hay
  | cons n ns ih =>
    intro hay r h
    cases hay with
    | nil => exact absurd h (by simp [dropPrefixL])
    | cons hh hs =>
      simp only [dropPrefixL] at h
      split at h
      · exact (ih h).trans (List.suffix_cons hh hs)
      · exact absurd h (by simp)

theorem takeSpaces1_suffix {cs r : List Char} (h : takeSpaces1 cs = some r) :
    r <:+ cs := by
  cases cs with
  | nil => exact absurd h (by simp [takeSpaces1])
  | cons c cs' =>
    simp only [takeSpaces1] at h
    split at h
    · simp only [Option.some.injEq] at h
      exact h ▸ (List.dropWhile_suffix pyIsSpace).trans (List.suffix_cons c cs')
    · exact absurd h (by simp)

theorem firstAlt_suffix : ∀ {alts : List (List Char)} {cs r : List Char},
    firstAlt alts cs = some r → r <:+ cs := by
  intro alts
  induction alts with
  | nil => intro cs r h; exact absurd h (by simp [firstAlt])
  | cons a rest ih =>
    intro cs r h
    simp only [firstAlt] at h
    cases ha : dropPrefixL a cs with
    | some r2 => rw [ha] at h; simp only [Option.some.injEq] at h; exact h ▸ dropPrefixL_suffix ha
    | none => rw [ha] at h; exact ih h

theorem matchNominalPara_none {cs : List Char} (h : noDecimalToken cs = true) :
    matchNominalPara cs = none := by
  unfold matchNominalPara
  rw [parseDecimal_none h]
  rfl

theorem matchRealPara_none {cs : List Char} (h : noDecimalToken cs = true) :
    matchRealPara cs = none := by
  unfold matchRealPara
  rw [parseDecimal_none h]
  rfl

theorem matchStdPara_none {cs : List Char} (h : noDecimalToken cs = true) :
    matchStdPara cs = none := by
  unfold matchStdPara
  cases h1 : dropPrefixL "with a".toList cs with
  | none => simp [h1]
  | some r1 =>
    cases h2 : takeSpaces1 r1 with
    | none => simp [h1, h2]
    | some r2 =>
      have hs : noDecimalToken r2 = true :=
        noDecimalToken_suffix ((takeSpaces1_suffix h2).trans (dropPrefixL_suffix h1)) h
      simp [h1, h2, parseDecimal_none hs]

theorem matchNominalCont_none {cs : List Char} (h : noDecimalToken cs = true) :
    matchNominalCont cs = none := by
  unfold matchNominalCont
  cases h1 : firstAlt ["annual".toList, "return".toList, "cagr".toList] cs with
  | none => simp [h1]
  | some r1 =>
    have hs : noDecimalToken (dropNonDigits r1) = true :=
      noDecimalToken_suffix
        ((List.dropWhile_suffix _).trans (firstAlt_suffix h1)) h
    simp [h1, parseDecimal_none hs]

theorem matchStdCont_none {cs : List Char} (h : noDecimalToken cs = true) :
    matchStdCont cs = none := by
  unfold matchStdCont
  cases h1 : firstAlt ["standard deviation".toList, "std".toList, "volatility".toList] cs with
  | none => simp [h1]
  | some r1 =>
    have hs : noDecimalToken (dropNonDigits r1) = true :=
      noDecimalToken_suffix
        ((List.dropWhile_suffix _).trans (firstAlt_suffix h1)) h
    simp [h1, parseDecimal_none hs]

theorem searchM_none {m : List Char → Option ℚ}
    (hm : ∀ s : List Char, noDecimalToken s = true → m s = none) :
    ∀ cs, noDecimalToken cs = true → searchM m cs = none
  | [], h => by simp [searchM, hm [] h]
  | c :: rest, h => by
    simp [searchM, hm _ h, searchM_none hm rest (noDecimalToken_tail h)]

theorem updateFromParagraph_id {st : MetricState} {t : String}
    (h : noDecimalToken t.toList = true) : updateFromParagraph st t = st := by
  obtain ⟨a, b, c⟩ := st
  have h' : noDecimalToken t.data = true := h
  simp [updateFromParagraph, searchM_none (fun _ hs => matchNominalPara_none hs) _ h',
    searchM_none (fun _ hs => matchStdPara_none hs) _ h',
    searchM_none (fun _ hs => matchRealPara_none hs) _ h']

theorem scanParagraphs_id : ∀ (ps : List String) (st : MetricState),
    (∀ p ∈ ps, noDecimalToken p.toList = true) → scanParagraphs ps st = st
  | [], _, _ => rfl
  | t :: rest, st, h => by
    have ht : noDecimalToken t.toList = true := h t (List.mem_cons_self t rest)
    have hrest : ∀ p ∈ rest, noDecimalToken p.toList = true :=
      fun p hp => h p (List.mem_cons_of_mem _ hp)
    simp only [scanParagraphs, updateFromParagraph_id ht,
      scanParagraphs_id rest st hrest]
    split <;> [skip; rfl]
    split <;> rfl

theorem updateFromContainer_id {st : MetricState} {t : String}
    (h : noDecimalToken (lowerL t.toList) = true) : updateFromContainer st t = st := by
  obtain ⟨a, b, c⟩ := st
  have h' : noDecimalToken (lowerL t.data) = true := h
  simp [updateFromContainer, searchM_none (fun _ hs => matchNominalCont_none hs) _ h',
    searchM_none (fun _ hs => matchStdCont_none hs) _ h']

theorem scanContainers_id : ∀ (ds : List HtmlDiv) (st : MetricState),
    (∀ d ∈ ds, noDecimalToken (lowerL d.text.toList) = true) → scanContainers ds st = st
  | [], _, _ => rfl
  | d :: rest, st, h => by
    have hd : noDecimalToken (lowerL d.text.toList) = true := h d (List.mem_cons_self d rest)
    have hrest : ∀ x ∈ rest, noDecimalToken (lowerL x.text.toList) = true :=
      fun x hx => h x (List.mem_cons_of_mem _ hx)
    rw [scanContainers, updateFromContainer_id hd, scanContainers_id rest st hrest]

theorem secondApproach_id {doc : Doc} {st : MetricState}
    (h : ∀ d ∈ doc.divs, noDecimalToken (lowerL d.text.toList) = true) :
    secondApproach doc st = st := by
  unfold secondApproach
  split
  · refine scanContainers_id _ _ (fun d hd => h d ?_)
    rcases List.mem_append.1 hd with h1 | h1 <;> exact (List.mem_filter.1 h1).1
  · rfl

/-- Claim C10: every metric pattern of every strategy requires a decimal
point (regex `\d+\.\d+`), so a document whose figures are all integer
percentages (no digit-dot-digit substring anywhere, e.g. `9%`) resolves no
metric at all and extraction fails with the missing-metrics error naming
both critical metrics. -/
theorem C10_integer_percent_rejected (url : String) (doc : Doc) (now : String)
    (hp : ∀ p ∈ doc.paragraphs, noDecimalToken p.toList = true)
    (hd : ∀ d ∈ doc.divs, noDecimalToken (lowerL d.text.toList) = true) :
    extract_metrics url doc now =
      .error (.missingMetrics ["30Y nominal return", "standard deviation"]) := by
  have h1 : firstApproach doc = ⟨none, none, none⟩ := scanParagraphs_id _ _ hp
  have h2 : stagesResult doc = ⟨none, none, none⟩ := by
    rw [stagesResult, h1]; exact secondApproach_id hd
  have h3 : resolveMetrics doc = ⟨none, none, none⟩ := by
    rw [resolveMetrics, h2]; rfl
  simp [extract_metrics, h3, missingMetricsList]

/-- Witness for C10 at a concrete document whose figures are written as
integer percentages. -/
theorem C10_witness :
    extract_metrics "u" cdoc10 "t" =
      .error (.missingMetrics ["30Y nominal return", "standard deviation"]) :=
  C10_integer_percent_rejected "u" cdoc10 "t" (by decide) (by decide)

/-! ## Shape of every successful extraction -/

theorem extract_ok_shape {url : String} {doc : Doc} {now : String} {r : MetricRecord}
    (h : extract_metrics url doc now = .ok r) :
    ∃ n s, (resolveMetrics doc).retorno_30y_nominal = some n ∧
      (resolveMetrics doc).desvio_estandar = some s ∧
      r.name = resolveName doc ∧ r.url = url ∧ r.nominal_30y_return = n ∧
      r.std_deviation = s ∧ r.scrape_time = now ∧
      r.real_30y_return = (resolveMetrics doc).retorno_30y_real ∧
      r.is_real_return_estimated =
        decide ((resolveMetrics doc).retorno_30y_real = some (n - 3)) ∧
      ((s ≠ 0 ∧ r.nominal_sharpe = n / s ∧
          (∃ rv, (resolveMetrics doc).retorno_30y_real = some rv ∧ r.real_sharpe = rv / s)) ∨
        (s = 0 ∧ r.nominal_sharpe = 0 ∧ r.real_sharpe = 0)) := by
  rcases hst : resolveMetrics doc with ⟨n?, r?, s?⟩
  rw [extract_metrics, hst] at h
  dsimp only at h
  cases n? with
  | none => cases s? <;> simp at h
  | some n =>
    cases s? with
    | none => simp at h
    | some s =>
      dsimp only at h
      by_cases hs : s = 0
      · subst hs
        rw [if_neg (by simp)] at h
        injection h with h
        subst h
        refine ⟨n, 0, rfl, rfl, rfl, rfl, rfl, rfl, rfl, rfl, rfl, ?_⟩
        exact Or.inr ⟨rfl, rfl, rfl⟩
      · rw [if_pos (by simp [hs])] at h
        cases hr : r? with
        | none => rw [hr] at h; simp at h
        | some rv =>
          rw [hr] at h
          injection h with h
          subst h
          refine ⟨n, s, rfl, rfl, rfl, rfl, rfl, rfl, rfl, ?_, ?_, ?_⟩
          · simp [hr]
          · simp [hr]
          · exact Or.inl ⟨hs, rfl, rv, by simp [hr]⟩

/-- Claim C2 is refuted: on a page whose inflation-adjusted return 6.50 is
genuinely found (nominal 9.50), the flag is still true because the flag is
computed from the value equation `real == nominal - 3.0`, not from
provenance. -/
theorem C2_counterexample : ¬ claimC2Statement := by
  intro h
  have h2 := h "u" cdoc2 "t" crec2 (by decide)
  have h3 : (stagesResult cdoc2).retorno_30y_real = none := h2.1 (by decide)
  exact absurd h3 (by decide)

/-- Claim C2 amended: for every successfully extracted record, the
estimation flag is true exactly when the record's real return equals its
nominal return minus 3 (scraper.py line 178), regardless of whether the
real return was found or estimated. -/
theorem C2_flag_iff_value (url : String) (doc : Doc) (now : String) (r : MetricRecord)
    (h : extract_metrics url doc now = .ok r) :
    (r.is_real_return_estimated = true ↔
      r.real_30y_return = some (r.nominal_30y_return - 3)) := by
  obtain ⟨n, s, hn, hs, _, _, hnom, _, _, hreal, hflag, _⟩ := extract_ok_shape h
  rw [hflag, hnom, hreal]
  simp

/-- Witness for C2's amended theorem at a concrete document. -/
theorem C2_witness :
    crec2.is_real_return_estimated = true ↔
      crec2.real_30y_return = some (crec2.nominal_30y_return - 3) :=
  C2_flag_iff_value "u" cdoc2 "t" crec2 (by decide)

/-- Claim C5: in every successfully extracted record the two ratios are the
returns divided by the standard deviation when it is positive, and both 0
when it is 0 (the guarded division of scraper.py lines 164-165). -/
theorem C5_sharpe_ratios (url : String) (doc : Doc) (now : String) (r : MetricRecord)
    (h : extract_metrics url doc now = .ok r) :
    (0 < r.std_deviation →
      r.nominal_sharpe = r.nominal_30y_return / r.std_deviation ∧
      r.real_30y_return.isSome = true ∧
      r.real_sharpe = r.real_30y_return.getD 0 / r.std_deviation) ∧
    (r.std_deviation = 0 → r.nominal_sharpe = 0 ∧ r.real_sharpe = 0) := by
  obtain ⟨n, s, hn, hs, _, _, hnom, hstd, _, hreal, _, hbr⟩ := extract_ok_shape h
  rcases hbr with ⟨hs0, hns, rv, hrv, hrs⟩ | ⟨hs0, hns, hrs⟩
  · refine ⟨fun _ => ⟨by rw [hns, hnom, hstd], ?_, ?_⟩, fun h0 => ?_⟩
    · rw [hreal, hrv]; rfl
    · rw [hrs, hreal, hrv, hstd]; rfl
    · rw [hstd] at h0; exact absurd h0 hs0
  · refine ⟨fun h0 => ?_, fun _ => ⟨hns, hrs⟩⟩
    rw [hstd, hs0] at h0
    exact absurd h0 (lt_irrefl 0)

/-- Witness for C5 at a concrete document with std 14 > 0. -/
theorem C5_witness :
    crec2.nominal_sharpe = crec2.nominal_30y_return / crec2.std_deviation ∧
      crec2.real_30y_return.isSome = true ∧
      crec2.real_sharpe = crec2.real_30y_return.getD 0 / crec2.std_deviation :=
  (C5_sharpe_ratios "u" cdoc2 "t" crec2 (by decide)).1 (by norm_num [crec2])

/-- Claim C9: extraction is deterministic in the document — two runs on the
same document with different timestamps agree on every field except
`scrape_time`. -/
theorem C9_determinism (url : String) (doc : Doc) (t1 t2 : String) (r1 r2 : MetricRecord)
    (h1 : extract_metrics url doc t1 = .ok r1)
    (h2 : extract_metrics url doc t2 = .ok r2) :
    r1.name = r2.name ∧ r1.url = r2.url ∧
      r1.nominal_30y_return = r2.nominal_30y_return ∧
      r1.real_30y_return = r2.real_30y_return ∧
      r1.std_deviation = r2.std_deviation ∧
      r1.nominal_sharpe = r2.nominal_sharpe ∧
      r1.real_sharpe = r2.real_sharpe ∧
      r1.is_real_return_estimated = r2.is_real_return_estimated := by
  obtain ⟨n, s, hn, hs, hname1, hurl1, hnom1, hstd1, _, hreal1, hflag1, hbr1⟩ :=
    extract_ok_shape h1
  obtain ⟨n', s', hn', hs', hname2, hurl2, hnom2, hstd2, _, hreal2, hflag2, hbr2⟩ :=
    extract_ok_shape h2
  rw [hn] at hn'
  rw [hs] at hs'
  obtain rfl : n' = n := (Option.some.inj hn').symm
  obtain rfl : s' = s := (Option.some.inj hs').symm
  have hsh : r1.nominal_sharpe = r2.nominal_sharpe ∧ r1.real_sharpe = r2.real_sharpe := by
    rcases hbr1 with ⟨hsz1, hns1, rv1, hrv1, hrs1⟩ | ⟨hsz1, hns1, hrs1⟩ <;>
      rcases hbr2 with ⟨hsz2, hns2, rv2, hrv2, hrs2⟩ | ⟨hsz2, hns2, hrs2⟩
    · rw [hrv1] at hrv2
      obtain rfl : rv2 = rv1 := (Option.some.inj hrv2).symm
      exact ⟨by rw [hns1, hns2], by rw [hrs1, hrs2]⟩
    · exact absurd hsz1 (hsz2 ▸ fun hc => hc rfl)
    · exact absurd hsz2 (hsz1 ▸ fun hc => hc rfl)
    · exact ⟨by rw [hns1, hns2], by rw [hrs1, hrs2]⟩
  exact ⟨by rw [hname1, hname2], by rw [hurl1, hurl2], by rw [hnom1, hnom2],
    by rw [hreal1, hreal2], by rw [hstd1, hstd2], hsh.1, hsh.2, by rw [hflag1, hflag2]⟩

/-- Witness for C9: the same document extracted at two timestamps. -/
theorem C9_witness :
    crec2.name = crec2b.name ∧ crec2.url = crec2b.url ∧
      crec2.nominal_30y_return = crec2b.nominal_30y_return ∧
      crec2.real_30y_return = crec2b.real_30y_return ∧
      crec2.std_deviation = crec2b.std_deviation ∧
      crec2.nominal_sharpe = crec2b.nominal_sharpe ∧
      crec2.real_sharpe = crec2b.real_sharpe ∧
      crec2.is_real_return_estimated = crec2b.is_real_return_estimated :=
  C9_determinism "u" cdoc2 "t" "t2" crec2 crec2b (by decide) (by decide)

/-- Claim C1 is refuted: the code has no structured-block strategy, so a
document containing a block with the scenario's text does not yield
real 6.90 with the flag clear — on the concrete `cdoc1` the generic
container strategy extracts 9.80 and 15.20 but estimates the real return. -/
theorem C1_counterexample : ¬ claimC1Statement := by
  intro h
  obtain ⟨r, hok, -, hreal, -, -⟩ :=
    h "u" cdoc1 "t" ⟨⟨some "stats", none, structuredBlockText⟩, by decide, rfl⟩
  have hc : extract_metrics "u" cdoc1 "t" = .ok crec1 := by decide
  rw [hc] at hok
  injection hok with hok
  subst hok
  exact absurd hreal (by decide)

/-- Claim C1 amended: on a document whose block with the scenario text has a
generic-token class, extraction succeeds through the container strategy with
nominal 9.80 and std 15.20, but the real return is the estimate 6.80 with
the flag set (ratios 49/76 and 17/38); with the source site's own style
class the block is never scanned and extraction fails with missing metrics. -/
theorem C1_amended_extraction :
    extract_metrics "u" cdoc1 "t" = .ok crec1 ∧
      extract_metrics "u" cdoc1b "t" =
        .error (.missingMetrics ["30Y nominal return", "standard deviation"]) :=
  ⟨by decide, by decide⟩

/-- Claim C3 is refuted: a real return genuinely found on the page but equal
to 0.00 is falsy in Python, so the fallback replaces it (on `cdoc3` the
found 0.00 becomes 5.50). -/
theorem C3_counterexample : ¬ claimC3Statement := by
  intro h
  have h2 := h.2 "u" cdoc3 "t" crec3 0 (by decide) (by decide)
  exact absurd h2 (by decide)

/-- Claim C3 amended: the fallback `real = nominal − 3` (flag set) applies
exactly when the resolved nominal return is truthy (present and nonzero)
and the resolved real return is falsy (absent or 0.0); a found nonzero real
return is never replaced. -/
theorem C3_fallback_amended :
    (∀ (url : String) (doc : Doc) (now : String) (r : MetricRecord) (n : ℚ),
      (stagesResult doc).retorno_30y_nominal = some n → n ≠ 0 →
      truthyFloat (stagesResult doc).retorno_30y_real = false →
      extract_metrics url doc now = .ok r →
      r.real_30y_return = some (n - 3) ∧ r.is_real_return_estimated = true) ∧
    (∀ (url : String) (doc : Doc) (now : String) (r : MetricRecord) (v : ℚ),
      (stagesResult doc).retorno_30y_real = some v → v ≠ 0 →
      extract_metrics url doc now = .ok r → r.real_30y_return = some v) := by
  constructor
  · intro url doc now r n hn hnz htr hok
    have hres : resolveMetrics doc =
        ⟨some n, some (n - 3), (stagesResult doc).desvio_estandar⟩ := by
      rw [resolveMetrics]
      unfold estimateRealReturn
      rw [hn]
      dsimp only
      rw [if_pos (by simp [hnz, htr])]
    obtain ⟨n', s, hn', hs, _, _, _, _, _, hreal, hflag, _⟩ := extract_ok_shape hok
    rw [hres] at hn'
    dsimp only at hn'
    obtain rfl : n = n' := Option.some.inj hn'
    constructor
    · rw [hreal, hres]
    · rw [hflag, hres]; simp
  · intro url doc now r v hv hvz hok
    have hres : (resolveMetrics doc).retorno_30y_real = some v := by
      rw [resolveMetrics]
      unfold estimateRealReturn
      cases hnm : (stagesResult doc).retorno_30y_nominal with
      | none => exact hv
      | some n =>
        dsimp only
        rw [if_neg (by simp [hv, truthyFloat, hvz])]
        exact hv
    obtain ⟨n', s, hn', hs', _, _, _, _, _, hreal, _, _⟩ := extract_ok_shape hok
    rw [hreal, hres]

/-- Witness for C3's amended theorem: the fallback fires on `cdoc1`
(no real return found) and the found nonzero real return of `cdoc2` is
kept. -/
theorem C3_witness :
    (crec1.real_30y_return = some ((49 : ℚ)/5 - 3) ∧
      crec1.is_real_return_estimated = true) ∧
      crec2.real_30y_return = some (13/2) :=
  ⟨C3_fallback_amended.1 "u" cdoc1 "t" crec1 (49/5) (by decide) (by decide)
      (by decide) (by decide),
    C3_fallback_amended.2 "u" cdoc2 "t" crec2 (13/2) (by decide) (by decide)
      (by decide)⟩

/-! ## Preservation lemmas for the container strategy -/

theorem updateFromContainer_keeps_nominal {st : MetricState} {t : String}
    (h : truthyFloat st.retorno_30y_nominal = true) :
    (updateFromContainer st t).retorno_30y_nominal = st.retorno_30y_nominal := by
  unfold updateFromContainer
  split
  · simp [h]
  · rfl

theorem updateFromContainer_keeps_std {st : MetricState} {t : String}
    (h : truthyFloat st.desvio_estandar = true) :
    (updateFromContainer st t).desvio_estandar = st.desvio_estandar := by
  unfold updateFromContainer
  split
  · simp [h]
  · rfl

theorem updateFromContainer_real (st : MetricState) (t : String) :
    (updateFromContainer st t).retorno_30y_real = st.retorno_30y_real := by
  unfold updateFromContainer
  split <;> rfl

theorem scanContainers_nominal : ∀ (ds : List HtmlDiv) (st : MetricState),
    truthyFloat st.retorno_30y_nominal = true →
    (scanContainers ds st).retorno_30y_nominal = st.retorno_30y_nominal
  | [], _, _ => rfl
  | d :: rest, st, h => by
    have hk := updateFromContainer_keeps_nominal (t := d.text) h
    rw [scanContainers, scanContainers_nominal rest _ (by rw [hk]; exact h), hk]

theorem scanContainers_std : ∀ (ds : List HtmlDiv) (st : MetricState),
    truthyFloat st.desvio_estandar = true →
    (scanContainers ds st).desvio_estandar = st.desvio_estandar
  | [], _, _ => rfl
  | d :: rest, st, h => by
    have hk := updateFromContainer_keeps_std (t := d.text) h
    rw [scanContainers, scanContainers_std rest _ (by rw [hk]; exact h), hk]

theorem scanContainers_real : ∀ (ds : List HtmlDiv) (st : MetricState),
    (scanContainers ds st).retorno_30y_real = st.retorno_30y_real
  | [], _ => rfl
  | d :: rest, st => by
    rw [scanContainers, scanContainers_real rest _, updateFromContainer_real]

theorem secondApproach_nominal {doc : Doc} {st : MetricState}
    (h : truthyFloat st.retorno_30y_nominal = true) :
    (secondApproach doc st).retorno_30y_nominal = st.retorno_30y_nominal := by
  unfold secondApproach
  split
  · exact scanContainers_nominal _ _ h
  · rfl

theorem secondApproach_std {doc : Doc} {st : MetricState}
    (h : truthyFloat st.desvio_estandar = true) :
    (secondApproach doc st).desvio_estandar = st.desvio_estandar := by
  unfold secondApproach
  split
  · exact scanContainers_std _ _ h
  · rfl

theorem secondApproach_real (doc : Doc) (st : MetricState) :
    (secondApproach doc st).retorno_30y_real = st.retorno_30y_real := by
  unfold secondApproach
  split
  · exact scanContainers_real _ _
  · rfl

/-- Claim C4 is refuted: a nominal return set to 0.00 by the paragraph
strategy is falsy, so the container strategy runs again and overwrites it
(on `cdoc4` the paragraph value 0.00 becomes 7.70). -/
theorem C4_counterexample : ¬ claimC4Statement := by
  intro h
  have h2 := (h cdoc4 0).1 (by decide)
  exact absurd h2 (by decide)

/-- Claim C4 amended: a metric resolved by the paragraph strategy to a
truthy (nonzero) value is never overwritten by the container strategy, and
the container strategy never touches the real return at all; only a value
of 0.0 (falsy, treated as unresolved) can be overwritten. -/
theorem C4_no_overwrite_amended :
    (∀ (doc : Doc) (v : ℚ), (firstApproach doc).retorno_30y_nominal = some v → v ≠ 0 →
      (stagesResult doc).retorno_30y_nominal = some v) ∧
    (∀ (doc : Doc) (v : ℚ), (firstApproach doc).desvio_estandar = some v → v ≠ 0 →
      (stagesResult doc).desvio_estandar = some v) ∧
    (∀ (doc : Doc) (st : MetricState),
      (secondApproach doc st).retorno_30y_real = st.retorno_30y_real) := by
  refine ⟨?_, ?_, fun doc st => secondApproach_real doc st⟩
  · intro doc v hv hvz
    rw [stagesResult, secondApproach_nominal (by rw [hv]; simp [truthyFloat, hvz]), hv]
  · intro doc v hv hvz
    rw [stagesResult, secondApproach_std (by rw [hv]; simp [truthyFloat, hvz]), hv]

/-- Witness for C4's amended theorem on concrete inputs. -/
theorem C4_witness :
    (stagesResult cdoc2).retorno_30y_nominal = some (19/2) ∧
      (stagesResult cdoc2).desvio_estandar = some 14 ∧
      (secondApproach cdoc2 ⟨none, some 1, none⟩).retorno_30y_real = some 1 :=
  ⟨C4_no_overwrite_amended.1 cdoc2 (19/2) (by decide) (by decide),
    C4_no_overwrite_amended.2.1 cdoc2 14 (by decide) (by decide),
    C4_no_overwrite_amended.2.2 cdoc2 ⟨none, some 1, none⟩⟩

/-- Claim C6 (code bug): on a document resolving nominal = 0.00 and
std = 14.00 with no real return found, Python truthiness skips the
real-return fallback, validation passes, and line 165 of the source raises
a `TypeError` — extraction fails although neither the nominal return nor
the standard deviation is missing, contradicting the claim that only
missing nominal/std can fail extraction. -/
theorem C6_code_divergence : extract_metrics "u" cdoc6 "t" = .error .typeError := by
  decide

/-! ## Batch lemmas -/

theorem scrape_ok_url {fetch : String → Except String Doc} {now url : String}
    {r : MetricRecord}
    (h : scrape_lazyportfolio_30y_metrics fetch now url = .ok r) : r.url = url := by
  unfold scrape_lazyportfolio_30y_metrics at h
  cases hf : fetch url with
  | error d => rw [hf] at h; simp at h
  | ok doc =>
    rw [hf] at h
    dsimp only at h
    cases he : extract_metrics url doc now with
    | error e => rw [he] at h; simp at h
    | ok r2 =>
      rw [he] at h
      injection h with h
      subst h
      obtain ⟨_, _, _, _, _, hurl, _⟩ := extract_ok_shape he
      exact hurl

/-- Claim C7: the batch produces exactly one outcome per source — the
record and failure counts always sum to the number of input URLs, and the
records keep the relative order of their sources (their `url` fields are
the successful inputs in input order). -/
theorem C7_batch_conservation (fetch : String → Except String Doc) (now : String)
    (urls : List String) :
    (scrape_multiple_lazyportfolio_30y_metrics fetch now urls).1.length +
        (scrape_multiple_lazyportfolio_30y_metrics fetch now urls).2.length =
      urls.length ∧
    (scrape_multiple_lazyportfolio_30y_metrics fetch now urls).1.map
        MetricRecord.url =
      urls.filter
        (fun u => (okRecord (scrape_lazyportfolio_30y_metrics fetch now u)).isSome) := by
  induction urls with
  | nil => exact ⟨rfl, rfl⟩
  | cons u rest ih =>
    obtain ⟨ih1, ih2⟩ := ih
    rw [scrape_multiple_lazyportfolio_30y_metrics]
    cases hs : scrape_lazyportfolio_30y_metrics fetch now u with
    | ok r =>
      refine ⟨?_, ?_⟩
      · simp only [List.length_cons]
        omega
      · simp [List.filter_cons, hs, okRecord, scrape_ok_url hs, ih2]
    | error e =>
      refine ⟨?_, ?_⟩
      · simp only [List.length_cons]
        omega
      · simp [List.filter_cons, hs, okRecord, ih2]

/-- Claim C8: per-source failure isolation — the batch result is fully
pointwise: the records are exactly the successful outcomes of each source
and the failures exactly the failed ones (each carrying its source and the
exception text), so one source's transport or extraction failure never
affects any other source, the batch function is total (never throws), and
when no source succeeds it returns an empty record list together with the
failure entries of every source. -/
theorem C8_failure_isolation (fetch : String → Except String Doc) (now : String)
    (urls : List String) :
    (scrape_multiple_lazyportfolio_30y_metrics fetch now urls).1 =
        urls.filterMap
          (fun u => okRecord (scrape_lazyportfolio_30y_metrics fetch now u)) ∧
      (scrape_multiple_lazyportfolio_30y_metrics fetch now urls).2 =
        urls.filterMap
          (fun u => failureEntry u (scrape_lazyportfolio_30y_metrics fetch now u)) := by
  induction urls with
  | nil => exact ⟨rfl, rfl⟩
  | cons u rest ih =>
    obtain ⟨ih1, ih2⟩ := ih
    rw [scrape_multiple_lazyportfolio_30y_metrics]
    cases hs : scrape_lazyportfolio_30y_metrics fetch now u with
    | ok r => simp [List.filterMap_cons, hs, okRecord, failureEntry, ih1, ih2]
    | error e => simp [List.filterMap_cons, hs, okRecord, failureEntry, ih1, ih2]
